import Mathlib

/-!
Verification of the video-generation subsystem of the online-boutique
repository (`src/video_generation/video_generator.py`), as a shallow
embedding in Lean 4.

The embedding mirrors the Python source:
* strings are Lean `String`s, manipulated through character-list helpers
  so that every operation reduces in the kernel;
* the mutable in-memory job registry (`self.jobs`, a dict) is an
  association list threaded through the operations;
* external collaborators (product catalog, HTTP, PIL, the Veo API
  client) are oracles collected in an `Env` record, exactly at the
  boundary the code calls them;
* Python exceptions are `Except`/`Option` values: a function that the
  source lets raise across its boundary returns `.error`, and a
  `try/except` block is a `match` on the oracle outcome.
-/

set_option maxRecDepth 30000

namespace OnlineBoutique

/-! ## Character-list string helpers

Executable stand-ins for Python's `in` (substring test), `str.lower`,
`str.startswith`, `str.split(sep)[0]` and slicing, defined by structural
recursion on the character list so they evaluate by `decide`/`rfl`. -/

/-- Boolean test that the first list is a prefix of the second. -/
def listHasPre : List Char → List Char → Bool
  | [], _ => true
  | _ :: _, [] => false
  | a :: as, b :: bs => a == b && listHasPre as bs

/-- Boolean test that the first list occurs contiguously inside the second. -/
def listHasSub : List Char → List Char → Bool
  | pat, [] => pat.isEmpty
  | pat, b :: bs => listHasPre pat (b :: bs) || listHasSub pat bs

/-- Python `pat in s` (substring containment). -/
def containsSubstr (s pat : String) : Bool := listHasSub pat.data s.data

/-- Python `s.lower()` (per-character lowercasing). -/
def strLower (s : String) : String := String.mk (s.data.map Char.toLower)

/-- Python `s.startswith(pat)`. -/
def strStartsWith (s pat : String) : Bool := listHasPre pat.data s.data

/-- Python `s.endswith(pat)`. -/
def strEndsWith (s pat : String) : Bool := listHasPre pat.data.reverse s.data.reverse

/-- Characters before the first occurrence of `sep` (whole list if absent). -/
def takeBeforeFirst (sep : Char) : List Char → List Char
  | [] => []
  | c :: cs => if c == sep then [] else c :: takeBeforeFirst sep cs

/-- Python `s.split(sep)[0]` for a one-character separator. -/
def splitHead (s : String) (sep : Char) : String := String.mk (takeBeforeFirst sep s.data)

/-- Python `s[:n]` (first `n` characters). -/
def strTake (s : String) (n : Nat) : String := String.mk (s.data.take n)


/-! ## Data model

`ProductCatalogClient.get_product` (video_generator.py:47-66) always
builds a dict with keys id, name, description, picture, price_usd
(currency_code, units, nanos) and categories, so the product snapshot is
a record with all of those fields present. -/

/-- The `price_usd` dict built by `ProductCatalogClient.get_product`. -/
structure PriceUsd where
  currency_code : String
  units : Int
  nanos : Int
deriving DecidableEq, Repr

/-- The product dict built by `ProductCatalogClient.get_product`. -/
structure Product where
  id : String
  name : String
  description : String
  picture : String
  price_usd : PriceUsd
  categories : List String
deriving DecidableEq, Repr

/-! ## Category classifier and setting selector -/

/-- `VideoGenerator._categorize_product` (video_generator.py:293-307):
lower-case the name and each category, then walk the fixed priority
chain fashion, accessories, home, tech with default lifestyle. -/
def categorize_product (categories : List String) (name : String) : String :=
  let name_lower := strLower name
  let categories_lower := categories.map (fun cat => strLower cat)
  if categories_lower.any (fun cat => cat == "clothing" || cat == "apparel")
      || (["shirt", "dress", "jacket", "pants"].any fun word => containsSubstr name_lower word) then
    "fashion"
  else if categories_lower.any (fun cat => cat == "accessories")
      || (["watch", "jewelry", "bag", "sunglasses"].any fun word => containsSubstr name_lower word) then
    "accessories"
  else if categories_lower.any (fun cat => cat == "home" || cat == "decor")
      || (["mug", "candle", "pillow"].any fun word => containsSubstr name_lower word) then
    "home"
  else if categories_lower.any (fun cat => cat == "tech" || cat == "electronics")
      || (["camera", "phone", "headphones"].any fun word => containsSubstr name_lower word) then
    "tech"
  else
    "lifestyle"

/-- One entry of the `settings` table in
`VideoGenerator._get_appropriate_setting`.  In the source the
`elements` value is a string (a Python list written inside quotes). -/
structure Setting where
  description : String
  atmosphere : String
  elements : String
deriving DecidableEq, Repr

/-- The `fashion` entry of the settings table (video_generator.py:309-338). -/
def setting_fashion : Setting where
  description := "A modern, minimalist studio with soft natural lighting from large windows. Clean white backdrop with subtle texture. Professional fashion photography setup."
  atmosphere := "Elegant fashion studio ambiance with premium feeling"
  elements := "[\"Professional photography lights with softboxes\", \"Seamless white backdrop\", \"Elegant wooden flooring\", \"Large windows with diffused daylight\", \"Minimalist furniture pieces\", \"Subtle shadows for depth\"]"

/-- The `accessories` entry of the settings table (video_generator.py:309-338). -/
def setting_accessories : Setting where
  description := "A luxurious, contemporary display space with marble surfaces and golden hour lighting. Premium materials and sophisticated ambiance."
  atmosphere := "Upscale boutique environment with luxury appeal"
  elements := "[\"Polished marble or granite surfaces\", \"Warm golden hour lighting\", \"Elegant display pedestals\", \"Soft fabric textures in background\", \"Metallic accent pieces\", \"Subtle reflective surfaces\"]"

/-- The `home` entry of the settings table (video_generator.py:309-338). -/
def setting_home : Setting where
  description := "A beautiful, modern home interior with natural lighting and cozy atmosphere. Clean design with warm, inviting elements."
  atmosphere := "Comfortable home environment showcasing lifestyle"
  elements := "[\"Natural wood surfaces\", \"Soft textiles and cushions\", \"Plants and natural elements\", \"Warm ambient lighting\", \"Modern furniture pieces\", \"Lifestyle props that complement the product\"]"

/-- The `tech` entry of the settings table (video_generator.py:309-338). -/
def setting_tech : Setting where
  description := "A sleek, futuristic environment with clean lines and modern lighting. High-tech aesthetic with subtle digital elements."
  atmosphere := "Modern tech showcase with innovation feel"
  elements := "[\"Clean geometric surfaces\", \"LED accent lighting\", \"Metallic and glass materials\", \"Subtle digital displays\", \"Modern minimalist furniture\", \"Professional studio lighting\"]"

/-- The `lifestyle` entry of the settings table (video_generator.py:309-338). -/
def setting_lifestyle : Setting where
  description := "A versatile, contemporary space that adapts to showcase the product in its best light. Professional commercial setting."
  atmosphere := "Premium commercial environment with broad appeal"
  elements := "[\"Adaptable backdrop system\", \"Professional commercial lighting\", \"Clean, uncluttered surfaces\", \"Neutral color palette\", \"High-quality materials\", \"Flexible styling elements\"]"

/-- `VideoGenerator._get_appropriate_setting` (video_generator.py:309-338):
`settings.get with default lifestyle`. -/
def get_appropriate_setting (product_type : String) : Setting :=
  if product_type == "fashion" then setting_fashion
  else if product_type == "accessories" then setting_accessories
  else if product_type == "home" then setting_home
  else if product_type == "tech" then setting_tech
  else if product_type == "lifestyle" then setting_lifestyle
  else setting_lifestyle

/-! ## Prompt synthesizer

`VideoGenerator.generate_ad_prompt` (video_generator.py:142-291).  The
returned prompt is the active f-string of lines 217-289, i.e. the
concatenation of ten literal segments with the interpolated values in
source order.  The f-string formats `price_text` nowhere: the value is
computed at line 148 and unused in the returned prompt. -/

/-- Literal segment 1 of the active prompt f-string in generate_ad_prompt. -/
def promptLit1 : String :=
  "\x7b\n            You are an expert cinematic ad director. \n            Use the following metadata as the complete creative brief to generate a premium advertisement. \n            Do not treat the product image as a static opening frame — instead, stage a cinematic reveal. \n            Follow the timeline as the storyboard, and use the room description, key elements, and environmental details to guide the visual style.\n            Audio must include continuous, premium-quality background music throughout the ad, seamlessly blending with the specific sound design described in each frame.\n\n            Here is the structured metadata to use:\n\n            \"metadata\": \x7b\n                \"prompt_name\": \""

/-- Literal segment 2 of the active prompt f-string in generate_ad_prompt. -/
def promptLit2 : String :=
  " Cinematic Advertisement\",\n                \"base_style\": \"cinematic, photorealistic, 4K, commercial-grade lighting\",\n                \"aspect_ratio\": \"16:9\"\n            \x7d,\n            \"room_description\": \""

/-- Literal segment 3 of the active prompt f-string in generate_ad_prompt. -/
def promptLit3 : String :=
  "\",\n            \"camera_setup\": \"High-end commercial cinematography with smooth motion. Use dolly-ins, pans, and dramatic lighting reveals. Avoid static product stills.\",\n            \"key_elements\": [\n                \"Featured product: "

/-- Literal segment 4 of the active prompt f-string in generate_ad_prompt. -/
def promptLit4 : String :=
  "\",\n                \"Dynamic and premium opening (not a freeze-frame)\",\n                \"Professional lighting setup\",\n                \"Clean, modern aesthetic\",\n                \""

/-- Literal segment 5 of the active prompt f-string in generate_ad_prompt. -/
def promptLit5 : String :=
  "\"\n            ],\n            \"product_showcase\": [\n                \"Product highlighted through cinematic lighting reveals\",\n                \"Slow-motion close-ups emphasizing textures and key features\",\n                \"Lifestyle integration showing product in real-world use\",\n                \"Premium angles: overhead, rotating pedestal, and elegant framing\",\n                \"Final hero shot with brand presence and tagline placement\"\n            ],\n            \"environmental_elements\": "

/-- Literal segment 6 of the active prompt f-string in generate_ad_prompt. -/
def promptLit6 : String :=
  ",\n            \"negative_prompts\": [\n                \"no static freeze-frames\",\n                \"no low quality\",\n                \"no amateur lighting\",\n                \"no cluttered backgrounds\", \n                \"no distracting elements\",\n                \"no poor composition\",\n                \"no oversaturated colors\",\n                \"no human voiceover\"\n            ],\n            \"timeline\": [\n                \x7b\n                    \"sequence\": 1,\n                    \"timestamp\": \"00:00–00:02\",\n                    \"action\": \"Cinematic establishing shot of the "

/-- Literal segment 7 of the active prompt f-string in generate_ad_prompt. -/
def promptLit7 : String :=
  ". Product silhouette or outline revealed gradually through light sweep or camera motion. No still freeze-frame.\",\n                    \"audio\": \"Subtle cinematic build-up layered over engaging background music (luxury, modern, ambient).\"\n                \x7d,\n                \x7b\n                    \"sequence\": 2, \n                    \"timestamp\": \"00:02–00:05\",\n                    \"action\": \"Product comes fully into focus with close-up glamour shots. Showcase signature details and textures. Highlight key features: "

/-- Literal segment 8 of the active prompt f-string in generate_ad_prompt. -/
def promptLit8 : String :=
  "...\",\n                    \"audio\": \"Background music continues seamlessly. Smooth audio transition with subtle product accent sounds.\"\n                \x7d,\n                \x7b\n                    \"sequence\": 3,\n                    \"timestamp\": \"00:05–00:07\", \n                    \"action\": \"Lifestyle demonstration: product naturally in use in a "

/-- Literal segment 9 of the active prompt f-string in generate_ad_prompt. -/
def promptLit9 : String :=
  ". Camera follows motion fluidly, showcasing benefits and premium feel.\",\n                    \"audio\": \"Music maintains rhythm. Ambient lifestyle sounds blend naturally with the score.\"\n                \x7d,\n                \x7b\n                    \"sequence\": 4,\n                    \"timestamp\": \"00:07–00:08\",\n                    \"action\": \"Final hero shot with elegant framing. Product rotates or sits center-stage with dramatic lighting. Brand or logo subtly integrated.\",\n                    \"audio\": \"Music swells to a confident, premium climax. Concludes on a strong, memorable note.\"\n                \x7d\n            ]\n            \x7d\n            \n            Task: Generate a cinematic, premium-quality advertisement for "

/-- Literal segment 10 of the active prompt f-string in generate_ad_prompt. -/
def promptLit10 : String :=
  ". \n            Focus on luxury presentation, lifestyle integration, and compelling storytelling that makes viewers desire the product. \n            Always interpret the metadata as the creative brief.\n            "

/-- Python `f"{nanos:02d}"`: zero-pad to width 2. -/
def pad2 (n : Int) : String :=
  if 0 <= n && n < 10 then "0" ++ toString n else toString n

/-- The `price_text` value computed at video_generator.py:148.  The
`price_usd` dict built by the catalog client is never empty, so the
`"affordable price"` fallback branch of the source is unreachable. -/
def price_text (product : Product) : String :=
  "$" ++ toString product.price_usd.units ++ "." ++ pad2 product.price_usd.nanos

/-- `VideoGenerator.generate_ad_prompt`: the active f-string, written as
the concatenation (grouped to the right) of its ten literal segments and
nine interpolations, in source order. -/
def generate_ad_prompt (product : Product) : String :=
  let name := product.name
  let description := product.description
  let setting := get_appropriate_setting (categorize_product product.categories product.name)
  promptLit1 ++ (name ++ (promptLit2 ++ (setting.description ++ (promptLit3 ++ (name ++
    (promptLit4 ++ (setting.atmosphere ++ (promptLit5 ++ (setting.elements ++
    (promptLit6 ++ (strLower (splitHead setting.description '.') ++
    (promptLit7 ++ (strTake description 100 ++
    (promptLit8 ++ (strLower setting.atmosphere ++
    (promptLit9 ++ (name ++ promptLit10)))))))))))))))))


/-! ## External collaborators

Everything the class calls across a process boundary — the product
catalog stub, `requests.get`, PIL decoding/encoding, and the genai
client (submit, poll, download) — is an oracle recorded in `Env`.  An
oracle that the source wraps in `try/except` returns an outcome value
whose error constructors stand for the raised exceptions. -/

/-- Outcome of `requests.get(url, timeout=10)` followed by
`raise_for_status()`: a body, or one of the exceptions the source's
`except` clause catches. -/
inductive FetchOutcome where
  | ok (body : List Nat)
  | netError
  | non2xx
  | timeout
deriving DecidableEq, Repr

/-- A decoded PIL image: its color mode and pixel payload. -/
structure PILImage where
  mode : String
  pixels : List Nat
deriving DecidableEq, Repr

/-- Outcome of `client.operations.get(operation)` in `check_job_status`:
still pending, done with a list of generated videos (absent `response`
or absent/empty `generated_videos` collapse to the empty list, exactly
the condition of video_generator.py:481-484), or an exception. -/
inductive PollOutcome where
  | pending
  | doneWith (videos : List Nat)
  | raises (msg : String)
deriving DecidableEq, Repr

/-- The collaborators of `VideoGenerator`, plus the two per-call
nondeterministic inputs (`uuid.uuid4()` and `time.time()`). -/
structure Env where
  catalog : String → Option Product
  frontend_service_addr : String
  httpGet : String → FetchOutcome
  decodeImage : List Nat → Option PILImage
  convertRGB : PILImage → PILImage
  encodeJPEG : PILImage → List Nat
  generate_videos : String → Option (List Nat × String) → Except String Nat
  operations_get : Nat → PollOutcome
  download : Nat → String → Except String Unit
  newJobId : String
  now : Nat

/-! ## Image acquisition pipeline -/

/-- URL resolution at video_generator.py:353-358: a reference beginning
with `/static/` is prefixed with the frontend address. -/
def full_picture_url (env : Env) (picture_url : String) : String :=
  if strStartsWith picture_url "/static/" then
    "http://" ++ env.frontend_service_addr ++ picture_url
  else picture_url

/-- `VideoGenerator._fetch_product_image` (video_generator.py:340-383).
Every failure — empty reference, fetch exception, non-2xx status,
timeout, undecodable bytes — returns `none`; on success the image is
converted to RGB when needed and re-encoded as JPEG. -/
def fetch_product_image (env : Env) (product : Product) : Option (List Nat × String) :=
  let picture_url := product.picture
  if picture_url == "" then none
  else
    match env.httpGet (full_picture_url env picture_url) with
    | .ok body =>
      match env.decodeImage body with
      | some im =>
        let im2 := if im.mode != "RGB" then env.convertRGB im else im
        some (env.encodeJPEG im2, "image/jpeg")
      | none => none
    | .netError => none
    | .non2xx => none
    | .timeout => none

/-! ## Job registry -/

/-- One value of the `self.jobs` dict (video_generator.py:409-418).
The `video_filename` key is absent until completion; `Option.none`
models an absent or `None`-valued key. -/
structure JobInfo where
  status : String
  product_id : String
  product : Product
  prompt : String
  operation : Option Nat
  video_path : Option String
  video_filename : Option String
  error : Option String
  created_at : Nat
deriving DecidableEq, Repr

/-- The `self.jobs` dict, as an association list from job id. -/
abbrev Jobs := List (String × JobInfo)

/-- Dict lookup `self.jobs[job_id]` / `job_id in self.jobs`. -/
def findJob : Jobs → String → Option JobInfo
  | [], _ => none
  | (k, v) :: rest, id => if k == id then some v else findJob rest id

/-- Dict assignment `self.jobs[job_id] = ...` (replace or append). -/
def setJob : Jobs → String → JobInfo → Jobs
  | [], id, j => [(id, j)]
  | (k, v) :: rest, id, j =>
    if k == id then (id, j) :: rest else (k, v) :: setJob rest id j

/-- The configured videos directory (video_generator.py:130). -/
def videos_dir : String := "/app/videos"

/-- Python `os.path.join(a, b)` for the paths the service builds. -/
def osPathJoin (a b : String) : String :=
  if strStartsWith b "/" then b
  else if a == "" || strEndsWith a "/" then a ++ b
  else a ++ "/" ++ b

/-! ## start / checkStatus -/

/-- Result of `start_video_generation`: the registry afterwards and
either the returned job id or the message of the exception the call
raises (`.error` = the exception crosses the boundary to the caller). -/
structure StartResult where
  jobs : Jobs
  result : Except String String
deriving Repr

/-- `VideoGenerator.start_video_generation` (video_generator.py:392-465).
A missing product raises `ValueError` before any job is recorded; a
submission failure records the job as failed and then re-raises. -/
def start_video_generation (env : Env) (jobs : Jobs) (product_id : String) : StartResult :=
  let job_id := env.newJobId
  match env.catalog product_id with
  | none => ⟨jobs, .error ("Product " ++ product_id ++ " not found")⟩
  | some product =>
    let prompt := generate_ad_prompt product
    let job0 : JobInfo :=
      { status := "starting", product_id := product_id, product := product,
        prompt := prompt, operation := none, video_path := none,
        video_filename := none, error := none, created_at := env.now }
    let jobs1 := setJob jobs job_id job0
    let image_data := fetch_product_image env product
    match env.generate_videos prompt image_data with
    | .ok operation =>
      ⟨setJob jobs1 job_id { job0 with operation := some operation, status := "generating" },
        .ok job_id⟩
    | .error e =>
      ⟨setJob jobs1 job_id { job0 with status := "failed", error := some e }, .error e⟩

/-- The dict returned by `check_job_status`.  `product`/`video_filename`
are `none` where the source's dict omits the key or stores `None`. -/
structure JobView where
  status : String
  product : Option Product
  video_filename : Option String
  error : Option String
deriving DecidableEq, Repr

/-- The full status view of video_generator.py:510-515. -/
def mkView (job : JobInfo) : JobView :=
  { status := job.status, product := some job.product,
    video_filename := job.video_filename, error := job.error }

/-- The message of video_generator.py:503. -/
def emptyResultMsg : String := "Video generation completed but no videos were generated"

/-- Result of `check_job_status`: registry afterwards, returned view,
and the list of video paths written by the download-and-persist step
during this call. -/
structure CheckResult where
  jobs : Jobs
  view : JobView
  downloads : List String
deriving DecidableEq, Repr

/-- `VideoGenerator.check_job_status` (video_generator.py:467-521).
Polls only a generating job with a stored operation; an exception from
the poll or the download is caught by the `except` clause, which marks
the job failed and returns the short failure view. -/
def check_job_status (env : Env) (jobs : Jobs) (job_id : String) : CheckResult :=
  match findJob jobs job_id with
  | none =>
    ⟨jobs, { status := "not_found", product := none, video_filename := none,
             error := some "Job not found" }, []⟩
  | some job =>
    if job.status == "generating" && job.operation.isSome then
      match job.operation with
      | none => ⟨jobs, mkView job, []⟩
      | some op =>
        match env.operations_get op with
        | .raises e =>
          ⟨setJob jobs job_id { job with status := "failed", error := some e },
            { status := "failed", product := none, video_filename := none, error := some e },
            []⟩
        | .pending => ⟨jobs, mkView job, []⟩
        | .doneWith [] =>
          let job2 := { job with status := "failed", error := some emptyResultMsg }
          ⟨setJob jobs job_id job2, mkView job2, []⟩
        | .doneWith (v :: _) =>
          let video_filename := job_id ++ ".mp4"
          let video_path := osPathJoin videos_dir video_filename
          match env.download v video_path with
          | .error e =>
            ⟨setJob jobs job_id { job with status := "failed", error := some e },
              { status := "failed", product := none, video_filename := none, error := some e },
              []⟩
          | .ok _ =>
            let job2 :=
              { job with
                status := "completed"
                video_path := some video_path
                video_filename := some video_filename }
            ⟨setJob jobs job_id job2, mkView job2, [video_path]⟩
    else ⟨jobs, mkView job, []⟩

/-! ## Result store -/

/-- `VideoGenerator.get_video_path`, first definition
(video_generator.py:385-390).  `os.path.exists` is the oracle
`fileExists`. -/
def get_video_path (fileExists : String → Bool) (video_filename : String) : Option String :=
  let video_path := osPathJoin videos_dir video_filename
  if fileExists video_path then some video_path else none

/-- `VideoGenerator.get_video_path`, second definition
(video_generator.py:523-528), the one that shadows the first in the
Python class body. -/
def get_video_path_shadowing (fileExists : String → Bool) (video_filename : String) : Option String :=
  let video_path := osPathJoin videos_dir video_filename
  if fileExists video_path then some video_path else none

/-! ## Small-step model of concurrent `check_job_status`

`VideoGenerator` takes no lock anywhere: two request handlers may run
`check_job_status` on the same job id concurrently, interleaving at the
statement level (the GIL makes single dict operations atomic but not the
poll / download / write sequence of lines 477-497).  A thread is a
program counter through that sequence; the steps are
1. read the job and poll the operation (lines 469-484),
2. download-and-persist the result (lines 492-493),
3. write the completed status back into the job (lines 495-497). -/

/-- Program counter of one handler running `check_job_status`. -/
inductive CheckPC where
  | start
  | dl (v : Nat) (video_filename : String) (video_path : String)
  | wr (v : Nat) (video_filename : String) (video_path : String)
  | halt
deriving DecidableEq, Repr

/-- Shared registry plus persisted-file log plus two handler threads. -/
structure ConcState where
  jobs : Jobs
  persisted : List String
  t1 : CheckPC
  t2 : CheckPC
deriving Repr

/-- One statement-level step of a single handler for job `job_id`. -/
def checkStep (env : Env) (job_id : String) (pc : CheckPC) (jobs : Jobs)
    (persisted : List String) : CheckPC × Jobs × List String :=
  match pc with
  | .halt => (.halt, jobs, persisted)
  | .start =>
    match findJob jobs job_id with
    | none => (.halt, jobs, persisted)
    | some job =>
      if job.status == "generating" && job.operation.isSome then
        match job.operation with
        | none => (.halt, jobs, persisted)
        | some op =>
          match env.operations_get op with
          | .raises e =>
            (.halt, setJob jobs job_id { job with status := "failed", error := some e },
              persisted)
          | .pending => (.halt, jobs, persisted)
          | .doneWith [] =>
            (.halt, setJob jobs job_id { job with status := "failed", error := some emptyResultMsg },
              persisted)
          | .doneWith (v :: _) =>
            let fn := job_id ++ ".mp4"
            (.dl v fn (osPathJoin videos_dir fn), jobs, persisted)
      else (.halt, jobs, persisted)
  | .dl v fn path =>
    match env.download v path with
    | .ok _ => (.wr v fn path, jobs, persisted ++ [path])
    | .error e =>
      match findJob jobs job_id with
      | none => (.halt, jobs, persisted)
      | some job =>
        (.halt, setJob jobs job_id { job with status := "failed", error := some e }, persisted)
  | .wr _ fn path =>
    match findJob jobs job_id with
    | none => (.halt, jobs, persisted)
    | some job =>
      (.halt,
        setJob jobs job_id
          { job with status := "completed", video_path := some path, video_filename := some fn },
        persisted)

/-- Schedule one step of thread 1 (`true`) or thread 2 (`false`). -/
def concStep (env : Env) (job_id : String) (s : ConcState) (tid : Bool) : ConcState :=
  if tid then
    let r := checkStep env job_id s.t1 s.jobs s.persisted
    { s with t1 := r.1, jobs := r.2.1, persisted := r.2.2 }
  else
    let r := checkStep env job_id s.t2 s.jobs s.persisted
    { s with t2 := r.1, jobs := r.2.1, persisted := r.2.2 }

/-- Run a finite schedule of thread choices. -/
def runSched (env : Env) (job_id : String) : ConcState → List Bool → ConcState
  | s, [] => s
  | s, tid :: rest => runSched env job_id (concStep env job_id s tid) rest

/-! ## Invariant predicates for the job registry -/

/-- The result reference of a job: `video_filename` / `video_path`. -/
def hasResultRef (j : JobInfo) : Bool := j.video_filename.isSome || j.video_path.isSome

/-- The invariant exactly as the spec states it: outside `starting`,
exactly one of operation handle, result reference, error detail is
non-empty. -/
def specExactlyOneInv (j : JobInfo) : Bool :=
  j.status == "starting" ||
    ((j.operation.isSome && !(hasResultRef j) && !(j.error.isSome)) ||
     (!(j.operation.isSome) && hasResultRef j && !(j.error.isSome)) ||
     (!(j.operation.isSome) && !(hasResultRef j) && j.error.isSome))

/-- The invariant the code actually maintains: the state-specific
fields are set, but the operation handle, once stored, is never cleared
on the `generating` to `completed`/`failed` transitions. -/
def goodJob (j : JobInfo) : Prop :=
  (j.status = "starting" ∧ j.operation = none ∧ j.video_filename = none ∧
    j.video_path = none ∧ j.error = none) ∨
  (j.status = "generating" ∧ j.operation.isSome ∧ j.video_filename = none ∧
    j.video_path = none ∧ j.error = none) ∨
  (j.status = "completed" ∧ j.video_filename.isSome ∧ j.video_path.isSome ∧
    j.error = none) ∨
  (j.status = "failed" ∧ j.error.isSome ∧ j.video_filename = none ∧
    j.video_path = none)

/-- Every job in the registry satisfies `goodJob`. -/
def goodJobs (js : Jobs) : Prop := ∀ id j, findJob js id = some j → goodJob j

/-! ## Spec-side classifier (for claim C6)

Transliteration of spec section 4.2, sentence by sentence: classify as
fashion if any category matches clothing or apparel or the name contains
a fashion keyword; else accessories; else home; else tech; else the
default lifestyle.  It differs from the source only in writing each
category alternative as its own `any`. -/

/-- The classifier as spec section 4.2 words it. -/
def specCategorize (categories : List String) (name : String) : String :=
  let n := strLower name
  let cl := categories.map (fun cat => strLower cat)
  if (cl.any fun c => c == "clothing") || (cl.any fun c => c == "apparel")
      || (["shirt", "dress", "jacket", "pants"].any fun w => containsSubstr n w) then "fashion"
  else if (cl.any fun c => c == "accessories")
      || (["watch", "jewelry", "bag", "sunglasses"].any fun w => containsSubstr n w) then "accessories"
  else if (cl.any fun c => c == "home") || (cl.any fun c => c == "decor")
      || (["mug", "candle", "pillow"].any fun w => containsSubstr n w) then "home"
  else if (cl.any fun c => c == "tech") || (cl.any fun c => c == "electronics")
      || (["camera", "phone", "headphones"].any fun w => containsSubstr n w) then "tech"
  else "lifestyle"


/-! ## Concrete fixtures for witnesses and counterexamples -/

/-- The accessories product of spec section 8 ("Gold Watch", `P1`). -/
def goldWatch : Product where
  id := "P1"
  name := "Gold Watch"
  description := "A refined timepiece with a polished golden case and a classic leather strap for every occasion. Crafted to last."
  picture := "/static/img/products/watch.jpg"
  price_usd := { currency_code := "USD", units := 5, nanos := 0 }
  categories := ["accessories"]

/-- A collaborator environment for the happy path: the catalog knows
`P1`, the image fetch fails with a network error (non-fatal),
submission yields operation handle 7, polling reports done with one
video, and the download succeeds. -/
def envHappy : Env where
  catalog := fun pid => if pid == "P1" then some goldWatch else none
  frontend_service_addr := "frontend:80"
  httpGet := fun _ => .netError
  decodeImage := fun _ => none
  convertRGB := fun im => im
  encodeJPEG := fun im => im.pixels
  generate_videos := fun _ _ => .ok 7
  operations_get := fun _ => .doneWith [3]
  download := fun _ _ => .ok ()
  newJobId := "job-1"
  now := 0

/-- `envHappy`, but polling reports done with no videos at all. -/
def envEmptyResult : Env :=
  { envHappy with operations_get := fun _ => .doneWith [] }

/-- `envHappy`, but the Veo submission raises. -/
def envSubmitFail : Env :=
  { envHappy with generate_videos := fun _ _ => .error "quota exceeded" }

/-- A job sitting in the `generating` state with operation handle 9. -/
def genJob : JobInfo where
  status := "generating"
  product_id := "P1"
  product := goldWatch
  prompt := "p"
  operation := some 9
  video_path := none
  video_filename := none
  error := none
  created_at := 0

/-- A terminal completed job. -/
def completedJob : JobInfo where
  status := "completed"
  product_id := "P1"
  product := goldWatch
  prompt := "p"
  operation := some 9
  video_path := some "/app/videos/jc.mp4"
  video_filename := some "jc.mp4"
  error := none
  created_at := 0

/-- Initial state of two handlers about to run `check_job_status`
concurrently on job `j`, which is generating and whose operation has
just completed. -/
def concInit : ConcState where
  jobs := [("j", genJob)]
  persisted := []
  t1 := .start
  t2 := .start

/-- A second gold watch differing from `goldWatch` only in `id` and
`picture` (the fields the prompt synthesizer does not read). -/
def goldWatchOtherId : Product where
  id := "P2"
  name := "Gold Watch"
  description := "A refined timepiece with a polished golden case and a classic leather strap for every occasion. Crafted to last."
  picture := "/static/img/products/watch2.jpg"
  price_usd := { currency_code := "USD", units := 5, nanos := 0 }
  categories := ["accessories"]


/-! ## Helper lemmas -/

theorem listHasPre_append (p r : List Char) : listHasPre p (p ++ r) = true := by
  induction p with
  | nil => rfl
  | cons a as ih => simp [listHasPre, ih]

theorem listHasSub_here (p r : List Char) : listHasSub p (p ++ r) = true := by
  cases p with
  | nil =>
    cases r with
    | nil => rfl
    | cons b bs => simp [listHasSub, listHasPre]
  | cons a as =>
    have h := listHasPre_append (a :: as) r
    rw [List.cons_append] at h
    simp [listHasSub, h]

theorem listHasSub_cons (b : Char) {p bs : List Char} (h : listHasSub p bs = true) :
    listHasSub p (b :: bs) = true := by
  simp [listHasSub, h]

theorem listHasSub_append (c : List Char) {p t : List Char} (h : listHasSub p t = true) :
    listHasSub p (c ++ t) = true := by
  induction c with
  | nil => exact h
  | cons b bs ih => exact listHasSub_cons b ih

theorem containsSubstr_here (pat r : String) : containsSubstr (pat ++ r) pat = true := by
  unfold containsSubstr
  rw [String.data_append]
  exact listHasSub_here _ _

theorem containsSubstr_skip (c : String) {s pat : String} (h : containsSubstr s pat = true) :
    containsSubstr (c ++ s) pat = true := by
  unfold containsSubstr at h ⊢
  rw [String.data_append]
  exact listHasSub_append _ h

theorem mem_head_of_listHasSub {a : Char} {p s : List Char}
    (h : listHasSub (a :: p) s = true) : a ∈ s := by
  induction s with
  | nil => simp [listHasSub, List.isEmpty] at h
  | cons b bs ih =>
    rw [listHasSub] at h
    cases hpre : listHasPre (a :: p) (b :: bs) with
    | true =>
      rw [listHasPre] at hpre
      simp only [Bool.and_eq_true] at hpre
      have hab : a = b := eq_of_beq hpre.1
      exact hab ▸ List.mem_cons_self a bs
    | false =>
      rw [hpre, Bool.false_or] at h
      exact List.mem_cons_of_mem _ (ih h)

theorem any_or_split (l : List String) (p q : String → Bool) :
    l.any (fun c => p c || q c) = (l.any p || l.any q) := by
  induction l with
  | nil => rfl
  | cons c cs ih =>
    simp only [List.any_cons, ih]
    cases p c <;> cases q c <;> simp

theorem findJob_setJob (js : Jobs) (id id2 : String) (j : JobInfo) :
    findJob (setJob js id j) id2 = if id == id2 then some j else findJob js id2 := by
  induction js with
  | nil => rfl
  | cons kv rest ih =>
    obtain ⟨k, v⟩ := kv
    by_cases hk : k = id
    · subst hk
      simp only [setJob, beq_self_eq_true, if_true]
      by_cases h2 : k = id2 <;> simp [findJob, h2]
    · have hk2 : (k == id) = false := by simp [hk]
      simp only [setJob, hk2, Bool.false_eq_true, if_false]
      simp only [findJob, ih]
      by_cases h2 : k = id2
      · subst h2
        have hid : (id == k) = false := by simp [Ne.symm hk]
        simp [hid, findJob]
      · by_cases h3 : id = id2 <;> simp [findJob, h2, h3]

theorem findJob_setJob_self (js : Jobs) (id : String) (j : JobInfo) :
    findJob (setJob js id j) id = some j := by
  rw [findJob_setJob]
  simp

theorem goodJobs_setJob {js : Jobs} (h : goodJobs js) {id : String} {j : JobInfo}
    (hj : goodJob j) : goodJobs (setJob js id j) := by
  intro id2 j2 hfind
  rw [findJob_setJob] at hfind
  by_cases hc : id = id2
  · simp only [hc, beq_self_eq_true, if_true, Option.some.injEq] at hfind
    exact hfind ▸ hj
  · have : (id == id2) = false := by simp [hc]
    simp only [this, Bool.false_eq_true, if_false] at hfind
    exact h id2 j2 hfind

theorem goodJob_generating {j : JobInfo} (hg : goodJob j) (hs : j.status = "generating") :
    j.video_filename = none ∧ j.video_path = none ∧ j.error = none := by
  rcases hg with ⟨h1, _⟩ | ⟨_, _, h2, h3, h4⟩ | ⟨h1, _⟩ | ⟨h1, _⟩
  · exact absurd (hs.symm.trans h1) (by decide)
  · exact ⟨h2, h3, h4⟩
  · exact absurd (hs.symm.trans h1) (by decide)
  · exact absurd (hs.symm.trans h1) (by decide)


/-! ## Prompt containment lemmas -/

theorem prompt_contains_name (p : Product) :
    containsSubstr (generate_ad_prompt p) p.name = true := by
  simp only [generate_ad_prompt]
  exact containsSubstr_skip _ (containsSubstr_here _ _)

theorem prompt_contains_atmosphere (p : Product) :
    containsSubstr (generate_ad_prompt p)
      (get_appropriate_setting (categorize_product p.categories p.name)).atmosphere = true := by
  simp only [generate_ad_prompt]
  exact containsSubstr_skip _ (containsSubstr_skip _ (containsSubstr_skip _
    (containsSubstr_skip _ (containsSubstr_skip _ (containsSubstr_skip _
    (containsSubstr_skip _ (containsSubstr_here _ _)))))))

theorem prompt_contains_desc100 (p : Product) :
    containsSubstr (generate_ad_prompt p) (strTake p.description 100) = true := by
  simp only [generate_ad_prompt]
  exact containsSubstr_skip _ (containsSubstr_skip _ (containsSubstr_skip _
    (containsSubstr_skip _ (containsSubstr_skip _ (containsSubstr_skip _
    (containsSubstr_skip _ (containsSubstr_skip _ (containsSubstr_skip _
    (containsSubstr_skip _ (containsSubstr_skip _ (containsSubstr_skip _
    (containsSubstr_skip _ (containsSubstr_here _ _)))))))))))))

/-! ## Claim C6 -/

/-- C6: the category classifier is a pure function of (categories, name)
that lower-cases both inputs and tests the rules in the fixed priority
order fashion, accessories, home, tech, defaulting to lifestyle, with
the first matching rule winning (it coincides pointwise with the
classifier transliterated from spec section 4.2); in particular
categories ["clothing"] with name "Leather Watch" yields fashion, the
category match being taken before the later accessories name-keyword
rule. -/
theorem c6_classifier_priority :
    (∀ cats name, categorize_product cats name = specCategorize cats name) ∧
    categorize_product ["clothing"] "Leather Watch" = "fashion" := by
  constructor
  · intro cats name
    simp only [categorize_product, specCategorize, any_or_split]
  · decide

/-! ## Claim C7 -/

/-- C7: the prompt synthesizer is deterministic in exactly the product
fields name, description, categories and price: two products agreeing
on those four fields (whatever their id or picture) produce
byte-identical prompts. -/
theorem c7_prompt_deterministic (p q : Product) (hn : p.name = q.name)
    (hd : p.description = q.description) (hc : p.categories = q.categories)
    (hp : p.price_usd = q.price_usd) :
    generate_ad_prompt p = generate_ad_prompt q := by
  simp only [generate_ad_prompt, hn, hd, hc]

/-- C7 witness: two concrete products differing only in id and picture
get byte-identical prompts. -/
theorem c7_prompt_deterministic_witness :
    generate_ad_prompt goldWatch = generate_ad_prompt goldWatchOtherId :=
  c7_prompt_deterministic goldWatch goldWatchOtherId rfl rfl rfl rfl

/-! ## Claim C8 -/

/-- C8 counterexample: the active prompt f-string never interpolates
`price_text`, so for the concrete Gold Watch product the synthesized
prompt does not contain its formatted price "$5.00" — refuting the
claim that every prompt embeds the price. -/
theorem c8_counterexample :
    containsSubstr (generate_ad_prompt goldWatch) (price_text goldWatch) = false := by
  have hnm : ¬ ('$' ∈ (generate_ad_prompt goldWatch).data) := by decide
  cases hc : containsSubstr (generate_ad_prompt goldWatch) (price_text goldWatch) with
  | false => rfl
  | true =>
    have h2 : listHasSub ('$' :: "5.00".data) (generate_ad_prompt goldWatch).data = true := hc
    exact absurd (mem_head_of_listHasSub h2) hnm

/-- C8 (amended): the prompt for the accessories product "Gold Watch"
contains the accessories setting atmosphere text and the literal
"Gold Watch", and every prompt embeds the description truncated to its
first 100 characters; the price is formatted as dollars-units-dot-
zero-padded-nanos by `price_text` but that value is not embedded in
the prompt. -/
theorem c8_prompt_contents_amended :
    containsSubstr (generate_ad_prompt goldWatch) "Gold Watch" = true ∧
    containsSubstr (generate_ad_prompt goldWatch)
      "Upscale boutique environment with luxury appeal" = true ∧
    (∀ p : Product, containsSubstr (generate_ad_prompt p) (strTake p.description 100) = true) ∧
    price_text goldWatch = "$5.00" := by
  refine ⟨prompt_contains_name goldWatch, ?_, prompt_contains_desc100, rfl⟩
  exact prompt_contains_atmosphere goldWatch

/-! ## Claim C10 -/

/-- C10: the two textually duplicated `get_video_path` definitions of
the class are extensionally equal — for every existence oracle and
filename they return the joined path when the file exists and `none`
otherwise — so the second shadowing the first is not a behavior
change. -/
theorem c10_get_video_path_equal :
    ∀ (fileExists : String → Bool) (video_filename : String),
      get_video_path fileExists video_filename =
        get_video_path_shadowing fileExists video_filename :=
  fun _ _ => rfl


/-! ## Claim C4 -/

/-- C4: `checkStatus` on a terminal (completed or failed) job returns
the stored view, leaves the registry unchanged, performs no download,
and its result does not depend on the external-operation oracles at
all (the universally quantified environment): terminal jobs are
immutable and never re-polled. -/
theorem c4_terminal_jobs_frame (jobs : Jobs) (jid : String) (job : JobInfo)
    (hfind : findJob jobs jid = some job)
    (hterm : job.status = "completed" ∨ job.status = "failed") :
    ∀ env : Env, check_job_status env jobs jid = ⟨jobs, mkView job, []⟩ := by
  intro env
  have hbeq : (job.status == "generating") = false := by
    rcases hterm with hs | hs <;> rw [hs] <;> decide
  simp only [check_job_status, hfind, hbeq, Bool.false_and, Bool.false_eq_true, if_false]

/-- C4 witness: instantiation at a concrete registry holding a
completed job and the concrete happy-path environment. -/
theorem c4_terminal_jobs_frame_witness :
    check_job_status envHappy [("jc", completedJob)] "jc" =
      ⟨[("jc", completedJob)], mkView completedJob, []⟩ :=
  c4_terminal_jobs_frame [("jc", completedJob)] "jc" completedJob rfl (Or.inl rfl) envHappy

/-! ## Claim C5 -/

/-- C5: a generating job whose operation polls as done with an empty
video list transitions to failed with the non-empty `EmptyResultError`
detail recorded, and the returned view carries that status and error. -/
theorem c5_empty_result_fails (env : Env) (jobs : Jobs) (jid : String) (job : JobInfo)
    (op : Nat) (hfind : findJob jobs jid = some job) (hst : job.status = "generating")
    (hop : job.operation = some op) (hpoll : env.operations_get op = .doneWith []) :
    findJob (check_job_status env jobs jid).jobs jid =
      some { job with status := "failed", error := some emptyResultMsg } ∧
    (check_job_status env jobs jid).view.status = "failed" ∧
    (check_job_status env jobs jid).view.error = some emptyResultMsg ∧
    emptyResultMsg ≠ "" := by
  refine ⟨?_, ?_, ?_, by decide⟩ <;>
    simp [check_job_status, hfind, hst, hop, hpoll, mkView, findJob_setJob_self]

/-- C5 witness: instantiation at the concrete generating job and the
environment whose poll reports done with no videos. -/
theorem c5_empty_result_fails_witness :
    findJob (check_job_status envEmptyResult [("j", genJob)] "j").jobs "j" =
      some { genJob with status := "failed", error := some emptyResultMsg } ∧
    (check_job_status envEmptyResult [("j", genJob)] "j").view.status = "failed" ∧
    (check_job_status envEmptyResult [("j", genJob)] "j").view.error = some emptyResultMsg ∧
    emptyResultMsg ≠ "" :=
  c5_empty_result_fails envEmptyResult [("j", genJob)] "j" genJob 9 rfl rfl rfl rfl

/-! ## Claim C9 -/

/-- C9: whenever the product image reference is absent, the fetch
raises (network error, non-2xx, timeout) or the bytes fail to decode,
the image pipeline returns no image, and `start_video_generation`
(with the submission succeeding) still takes the job to generating and
returns the job id: image acquisition failure is never fatal. -/
theorem c9_image_failure_nonfatal (env : Env) (pid : String) (p : Product) (op : Nat)
    (hcat : env.catalog pid = some p)
    (hbad : p.picture = "" ∨
      env.httpGet (full_picture_url env p.picture) = .netError ∨
      env.httpGet (full_picture_url env p.picture) = .non2xx ∨
      env.httpGet (full_picture_url env p.picture) = .timeout ∨
      (∃ body, env.httpGet (full_picture_url env p.picture) = .ok body ∧
        env.decodeImage body = none))
    (hsub : env.generate_videos (generate_ad_prompt p) none = .ok op) :
    fetch_product_image env p = none ∧
    ∀ jobs : Jobs,
      (start_video_generation env jobs pid).result = .ok env.newJobId ∧
      (findJob (start_video_generation env jobs pid).jobs env.newJobId).map
        JobInfo.status = some "generating" := by
  have hfetch : fetch_product_image env p = none := by
    rcases hbad with h0 | h1 | h1 | h1 | ⟨body, hb, hdec⟩
    · simp [fetch_product_image, h0]
    · by_cases hp : p.picture = ""
      · simp [fetch_product_image, hp]
      · simp [fetch_product_image, hp, h1]
    · by_cases hp : p.picture = ""
      · simp [fetch_product_image, hp]
      · simp [fetch_product_image, hp, h1]
    · by_cases hp : p.picture = ""
      · simp [fetch_product_image, hp]
      · simp [fetch_product_image, hp, h1]
    · by_cases hp : p.picture = ""
      · simp [fetch_product_image, hp]
      · simp [fetch_product_image, hp, hb, hdec]
  refine ⟨hfetch, fun jobs => ⟨?_, ?_⟩⟩
  · simp only [start_video_generation, hcat, hfetch, hsub]
  · simp only [start_video_generation, hcat, hfetch, hsub]
    rw [findJob_setJob_self]
    rfl

/-- C9 witness: the concrete Gold Watch whose `/static/` picture
reference is unreachable (network error) still reaches generating. -/
theorem c9_image_failure_nonfatal_witness :
    fetch_product_image envHappy goldWatch = none ∧
    (start_video_generation envHappy [] "P1").result = .ok "job-1" ∧
    (findJob (start_video_generation envHappy [] "P1").jobs "job-1").map
      JobInfo.status = some "generating" := by
  have h := c9_image_failure_nonfatal envHappy "P1" goldWatch 7 rfl
    (Or.inr (Or.inl rfl)) rfl
  exact ⟨h.1, (h.2 []).1, (h.2 []).2⟩


/-! ## Claim C2 -/

/-- C2 counterexample: `start_video_generation` on a product id the
catalog does not know raises `ValueError` (the call returns the
exception, not a job id) and records no job at all — refuting the
claim that a missing product yields a stored Failed job and a returned
job id with no exception crossing the boundary. -/
theorem c2_counterexample :
    (start_video_generation envHappy [] "nope").result =
      .error "Product nope not found" ∧
    (start_video_generation envHappy [] "nope").jobs = [] :=
  ⟨rfl, rfl⟩

/-- C2 (amended): `start` raises `ValueError` for a missing product
without recording any job; a submission failure is recorded in the
job's error detail and then re-raised across the boundary; only
`checkStatus` captures poll errors into the job's error detail and
returns a structured failure view instead of raising. -/
theorem c2_error_propagation_amended (env : Env) (jobs : Jobs) (pid : String) :
    (env.catalog pid = none →
      (start_video_generation env jobs pid).result =
        .error ("Product " ++ pid ++ " not found") ∧
      (start_video_generation env jobs pid).jobs = jobs) ∧
    (∀ product e, env.catalog pid = some product →
      env.generate_videos (generate_ad_prompt product) (fetch_product_image env product) =
        .error e →
      (start_video_generation env jobs pid).result = .error e ∧
      (findJob (start_video_generation env jobs pid).jobs env.newJobId).map
        (fun j => (j.status, j.error)) = some ("failed", some e)) ∧
    (∀ jid job op e, findJob jobs jid = some job → job.status = "generating" →
      job.operation = some op → env.operations_get op = .raises e →
      (check_job_status env jobs jid).view =
        { status := "failed", product := none, video_filename := none, error := some e } ∧
      (findJob (check_job_status env jobs jid).jobs jid).map
        (fun j => (j.status, j.error)) = some ("failed", some e)) := by
  refine ⟨fun hcat => ?_, fun product e hcat hsub => ?_, fun jid job op e hfind hst hop hpoll => ?_⟩
  · simp [start_video_generation, hcat]
  · constructor
    · simp [start_video_generation, hcat, hsub]
    · simp [start_video_generation, hcat, hsub, findJob_setJob_self]
  · constructor
    · simp [check_job_status, hfind, hst, hop, hpoll]
    · simp [check_job_status, hfind, hst, hop, hpoll, findJob_setJob_self]

/-- C2 witness: with the concrete environment whose submission raises
"quota exceeded", starting the Gold Watch job records a failed job
carrying that detail and re-raises it to the caller. -/
theorem c2_error_propagation_amended_witness :
    (start_video_generation envSubmitFail [] "P1").result = .error "quota exceeded" ∧
    (findJob (start_video_generation envSubmitFail [] "P1").jobs "job-1").map
      (fun j => (j.status, j.error)) = some ("failed", some "quota exceeded") :=
  (c2_error_propagation_amended envSubmitFail [] "P1").2.1 goldWatch "quota exceeded" rfl rfl

/-! ## Claim C3 -/

/-- C3 counterexample: `check_job_status` takes no lock, so the
interleaving in which both handlers poll the newly-completed operation
before either writes back downloads and persists the video twice —
refuting the claim that a per-job exclusivity mechanism makes exactly
one file persist. -/
theorem c3_counterexample :
    (runSched envHappy "j" concInit [true, false, true, true, false, false]).persisted =
      ["/app/videos/j.mp4", "/app/videos/j.mp4"] ∧
    (runSched envHappy "j" concInit [true, false, true, true, false, false]).t1 =
      .halt ∧
    (runSched envHappy "j" concInit [true, false, true, true, false, false]).t2 =
      .halt :=
  ⟨rfl, rfl, rfl⟩

/-- C3 (amended): the code has no per-job lock, and an interleaving of
two concurrent `checkStatus` calls on a newly-completed job can
persist the file twice; when the two calls are serialized — the second
runs after the first completes — exactly one download occurs and the
second call returns the terminal completed view without touching the
registry. -/
theorem c3_sequential_single_download (env : Env) (jobs : Jobs) (jid : String)
    (job : JobInfo) (op v : Nat) (vs : List Nat)
    (hfind : findJob jobs jid = some job) (hst : job.status = "generating")
    (hop : job.operation = some op)
    (hpoll : env.operations_get op = .doneWith (v :: vs))
    (hdl : env.download v (osPathJoin videos_dir (jid ++ ".mp4")) = .ok ()) :
    (check_job_status env jobs jid).downloads =
      [osPathJoin videos_dir (jid ++ ".mp4")] ∧
    (check_job_status env jobs jid).view.status = "completed" ∧
    (check_job_status env (check_job_status env jobs jid).jobs jid).downloads = [] ∧
    (check_job_status env (check_job_status env jobs jid).jobs jid).jobs =
      (check_job_status env jobs jid).jobs ∧
    (check_job_status env (check_job_status env jobs jid).jobs jid).view.status =
      "completed" := by
  have h1 : check_job_status env jobs jid =
      ⟨setJob jobs jid
        { job with
          status := "completed"
          video_path := some (osPathJoin videos_dir (jid ++ ".mp4"))
          video_filename := some (jid ++ ".mp4") },
        mkView
          { job with
            status := "completed"
            video_path := some (osPathJoin videos_dir (jid ++ ".mp4"))
            video_filename := some (jid ++ ".mp4") },
        [osPathJoin videos_dir (jid ++ ".mp4")]⟩ := by
    simp [check_job_status, hfind, hst, hop, hpoll, hdl]
  have hgc : (("completed" : String) == "generating") = false := by decide
  refine ⟨?_, ?_, ?_, ?_, ?_⟩ <;> rw [h1] <;>
    simp [check_job_status, findJob_setJob_self, mkView, hgc]

/-- C3 witness: instantiation at the concrete generating job, with the
happy-path environment in which the poll reports one finished video. -/
theorem c3_sequential_single_download_witness :
    (check_job_status envHappy [("j", genJob)] "j").downloads = ["/app/videos/j.mp4"] ∧
    (check_job_status envHappy [("j", genJob)] "j").view.status = "completed" ∧
    (check_job_status envHappy (check_job_status envHappy [("j", genJob)] "j").jobs
      "j").downloads = [] ∧
    (check_job_status envHappy (check_job_status envHappy [("j", genJob)] "j").jobs
      "j").jobs = (check_job_status envHappy [("j", genJob)] "j").jobs ∧
    (check_job_status envHappy (check_job_status envHappy [("j", genJob)] "j").jobs
      "j").view.status = "completed" :=
  c3_sequential_single_download envHappy [("j", genJob)] "j" genJob 9 3 []
    rfl rfl rfl rfl rfl


/-! ## Claim C1 -/

/-- C1 counterexample: running the happy path — `start` on the Gold
Watch, then `checkStatus` once the operation is done — leaves the
completed job with BOTH its operation handle and its result reference
present (the handle is never cleared), so `specExactlyOneInv`, the
spec's exactly-one-of-three invariant, evaluates to false on a
completed job. -/
theorem c1_counterexample :
    (findJob (check_job_status envHappy
        (start_video_generation envHappy [] "P1").jobs "job-1").jobs "job-1").map
      (fun j => (j.status, specExactlyOneInv j, j.operation.isSome, hasResultRef j,
        j.error.isSome)) =
      some ("completed", false, true, true, false) := rfl

/-- C1 (amended): the invariant the code maintains is weaker than
exactly-one-of-three: on every registry of well-formed jobs, `start`
and `checkStatus` preserve `goodJob` — Starting has none of the three,
Generating has exactly the operation handle, Completed has the result
reference and no error, Failed has the error detail and no result —
while the operation handle, once stored, is retained across the
terminal transitions instead of being cleared. -/
theorem c1_field_invariant_amended (env : Env) (jobs : Jobs) (pid jid : String)
    (h : goodJobs jobs) :
    goodJobs (start_video_generation env jobs pid).jobs ∧
    goodJobs (check_job_status env jobs jid).jobs := by
  constructor
  · cases hcat : env.catalog pid with
    | none => simpa [start_video_generation, hcat] using h
    | some product =>
      cases hsub : env.generate_videos (generate_ad_prompt product)
          (fetch_product_image env product) with
      | ok op =>
        simp only [start_video_generation, hcat, hsub]
        exact goodJobs_setJob (goodJobs_setJob h (Or.inl ⟨rfl, rfl, rfl, rfl, rfl⟩))
          (Or.inr (Or.inl ⟨rfl, rfl, rfl, rfl, rfl⟩))
      | error e =>
        simp only [start_video_generation, hcat, hsub]
        exact goodJobs_setJob (goodJobs_setJob h (Or.inl ⟨rfl, rfl, rfl, rfl, rfl⟩))
          (Or.inr (Or.inr (Or.inr ⟨rfl, rfl, rfl, rfl⟩)))
  · cases hfind : findJob jobs jid with
    | none => simpa [check_job_status, hfind] using h
    | some job =>
      have hgood := h jid job hfind
      cases hcond : (job.status == "generating" && job.operation.isSome) with
      | false =>
        simp only [check_job_status, hfind, hcond, Bool.false_eq_true, if_false]
        exact h
      | true =>
        have hst : job.status = "generating" := by
          simp only [Bool.and_eq_true] at hcond
          exact eq_of_beq hcond.1
        cases hop : job.operation with
        | none => rw [hop] at hcond; simp at hcond
        | some op =>
          obtain ⟨hvf, hvp, herr⟩ := goodJob_generating hgood hst
          cases hpoll : env.operations_get op with
          | raises e =>
            simp [check_job_status, hfind, hst, hop, hpoll]
            apply goodJobs_setJob h
            exact Or.inr (Or.inr (Or.inr ⟨rfl, rfl, hvf, hvp⟩))
          | pending =>
            simp [check_job_status, hfind, hst, hop, hpoll]
            exact h
          | doneWith vids =>
            cases vids with
            | nil =>
              simp [check_job_status, hfind, hst, hop, hpoll]
              apply goodJobs_setJob h
              exact Or.inr (Or.inr (Or.inr ⟨rfl, rfl, hvf, hvp⟩))
            | cons v rest =>
              cases hdl : env.download v (osPathJoin videos_dir (jid ++ ".mp4")) with
              | error e =>
                simp [check_job_status, hfind, hst, hop, hpoll, hdl]
                apply goodJobs_setJob h
                exact Or.inr (Or.inr (Or.inr ⟨rfl, rfl, hvf, hvp⟩))
              | ok u =>
                simp [check_job_status, hfind, hst, hop, hpoll, hdl]
                apply goodJobs_setJob h
                exact Or.inr (Or.inr (Or.inl ⟨rfl, rfl, rfl, herr⟩))

/-- C1 witness: instantiation at the empty registry (vacuously
well-formed) with the concrete happy-path environment. -/
theorem c1_field_invariant_amended_witness :
    goodJobs (start_video_generation envHappy [] "P1").jobs ∧
    goodJobs (check_job_status envHappy [] "J").jobs :=
  c1_field_invariant_amended envHappy [] "P1" "J"
    (fun _ _ hfind => Option.noConfusion hfind)


end OnlineBoutique
